import Mathlib

/-!
Shallow embedding of the session / request-interception subsystem of the
fandom-wiki front-end (src/api/client.ts, src/api/endpoints.ts, the auth
slice, LoginForm.tsx and ProfilePage).

Browser state (localStorage, sessionStorage, the axios default headers and
`location`) is threaded explicitly; `Date.now()` is an explicit `now : Nat`
parameter (epoch milliseconds).  JavaScript string truthiness is modelled by
`Option String` values where `none` is a missing field and `some ""` is the
empty (falsy) string.
-/

namespace FW

/-- The configured auth mode (`VITE_AUTH_MODE`, constant at runtime). -/
inductive AuthMode
  | localMode
  | basic
  | hybrid
deriving DecidableEq, Repr

/-- A value stored under one of the three auth localStorage keys: a parsed
JSON object with optional `username` / `password` string fields and a numeric
`exp`, or unparseable content (`JSON.parse` throws). -/
inductive StoredVal
  | json (username : Option String) (password : Option String) (exp : Nat)
  | malformed
deriving DecidableEq, Repr

/-- The three localStorage keys used by client.ts:
`fw_auth` (primary basic key), `fw_auth_basic` (secondary basic key),
`fw_auth_local` (local key). -/
structure Storage where
  fwAuth : Option StoredVal
  fwAuthBasic : Option StoredVal
  fwAuthLocal : Option StoredVal
deriving DecidableEq, Repr

/-- The axios in-memory defaults relevant here
(`api.defaults.headers.common.Authorization`). -/
structure Defaults where
  authorization : Option String
deriving DecidableEq, Repr

/-- Result shape of `readBasicAuth` (type `BasicStored` in client.ts). -/
structure BasicStored where
  username : String
  password : String
  exp : Nat
deriving DecidableEq, Repr

/-- Result shape of `readLocalAuth` (type `LocalStored` in client.ts). -/
structure LocalStored where
  username : String
  exp : Nat
deriving DecidableEq, Repr

/-! ### base64 (`btoa`) -/

/-- The base64 alphabet character for a sextet. -/
def b64Char (n : Nat) : Char :=
  "ABCDEFGHIJKLMNOPQRSTUVWXYZabcdefghijklmnopqrstuvwxyz0123456789+/".data.getD n 'A'

/-- base64-encode a byte list, three bytes at a time, `=`-padded. -/
def b64Chunks : List Nat → List Char
  | [] => []
  | [a] => [b64Char (a / 4), b64Char (a % 4 * 16), '=', '=']
  | [a, b] => [b64Char (a / 4), b64Char (a % 4 * 16 + b / 16), b64Char (b % 16 * 4), '=']
  | a :: b :: c :: rest =>
      b64Char (a / 4) :: b64Char (a % 4 * 16 + b / 16) ::
        b64Char (b % 16 * 4 + c / 64) :: b64Char (c % 64) :: b64Chunks rest

/-- Browser `btoa` on a latin1 string (code points are the bytes). -/
def btoa (s : String) : String :=
  ⟨b64Chunks (s.data.map (fun ch => ch.toNat % 256))⟩

/-- The header value `rememberBasicAuth` / the interceptors build:
`"Basic " + btoa(username + ":" + password)`. -/
def basicHeaderValue (username password : String) : String :=
  "Basic " ++ btoa (username ++ ":" ++ password)

/-! ### CredentialStore reads (client.ts `readBasicAuth` / `readLocalAuth`) -/

/-- `tryRead` inside `readBasicAuth`: parse one localStorage cell, validate
`!parsed?.username || !parsed?.password || Date.now() > Number(parsed.exp)`,
remove the entry on any validation or parse failure.  Returns the parsed
record (or `none`) together with the new cell contents. -/
def tryRead (now : Nat) (cell : Option StoredVal) : Option BasicStored × Option StoredVal :=
  match cell with
  | some (.json (some u) (some p) exp) =>
      if u = "" ∨ p = "" ∨ now > exp then (none, none)
      else (some ⟨u, p, exp⟩, cell)
  | some _ => (none, none)
  | none => (none, none)

/-- `readBasicAuth`: `tryRead(AUTH_BASIC_KEY_PRIMARY) || tryRead(AUTH_BASIC_KEY_SECOND)`;
a successful primary read leaves storage untouched, and the secondary key is
only consulted (hence only cleaned) when the primary one yields nothing. -/
def readBasicAuth (now : Nat) (st : Storage) : Option BasicStored × Storage :=
  match tryRead now st.fwAuth with
  | (some s, _) => (some s, st)
  | (none, c1) =>
      ((tryRead now st.fwAuthBasic).1,
       { st with fwAuth := c1, fwAuthBasic := (tryRead now st.fwAuthBasic).2 })

/-- `readLocalAuth`: same validation on the `fw_auth_local` cell, but only the
`username` field is required; a successful read leaves storage untouched. -/
def readLocalAuth (now : Nat) (st : Storage) : Option LocalStored × Storage :=
  match st.fwAuthLocal with
  | some (.json (some u) _ exp) =>
      if u = "" ∨ now > exp then (none, { st with fwAuthLocal := none })
      else (some ⟨u, exp⟩, st)
  | some _ => (none, { st with fwAuthLocal := none })
  | none => (none, st)

/-- Whether a basic-shaped cell passes `readBasicAuth`'s validation. -/
def basicCellValid (now : Nat) : StoredVal → Bool
  | .json (some u) (some p) exp => !(u == "") && !(p == "") && !(decide (now > exp))
  | _ => false

/-- Whether a cell passes `readLocalAuth`'s validation. -/
def localCellValid (now : Nat) : StoredVal → Bool
  | .json (some u) _ exp => !(u == "") && !(decide (now > exp))
  | _ => false

/-! ### CredentialStore writes (client.ts `remember*Auth`, `dropAuth`,
`bootstrapAuthFromStorage`) -/

/-- `Date.now() + days * 24 * 3600 * 1000`. -/
def mkExp (now days : Nat) : Nat := now + days * 24 * 3600 * 1000

/-- `rememberBasicAuth`: write `{username, password, exp}` under `fw_auth` and
immediately set the axios default Authorization header. -/
def rememberBasicAuthS (username password : String) (days now : Nat)
    (st : Storage) (df : Defaults) : Storage × Defaults :=
  ({ st with fwAuth := some (.json (some username) (some password) (mkExp now days)) },
   { df with authorization := some (basicHeaderValue username password) })

/-- `rememberLocalAuth`: write `{username, exp}` under `fw_auth_local`. -/
def rememberLocalAuthS (username : String) (days now : Nat) (st : Storage) : Storage :=
  { st with fwAuthLocal := some (.json (some username) none (mkExp now days)) }

/-- `rememberHybridAuth`: `rememberBasicAuth` then `rememberLocalAuth`. -/
def rememberHybridAuthS (username password : String) (days now : Nat)
    (st : Storage) (df : Defaults) : Storage × Defaults :=
  let (st1, df1) := rememberBasicAuthS username password days now st df
  (rememberLocalAuthS username days now st1, df1)

/-- `rememberAuth`: dispatch on `AUTH_MODE`. -/
def rememberAuthS (mode : AuthMode) (username password : String) (days now : Nat)
    (st : Storage) (df : Defaults) : Storage × Defaults :=
  match mode with
  | .localMode => (rememberLocalAuthS username days now st, df)
  | .hybrid => rememberHybridAuthS username password days now st df
  | .basic => rememberBasicAuthS username password days now st df

/-- `dropAuth`: remove all three keys and delete the default header. -/
def dropAuthS (df : Defaults) : Storage × Defaults :=
  (⟨none, none, none⟩, { df with authorization := none })

/-- `bootstrapAuthFromStorage`: in non-local modes prime the default header
from a valid stored record (the read may clean invalid entries); in local
mode delete the default header. -/
def bootstrapAuthFromStorage (mode : AuthMode) (now : Nat)
    (st : Storage) (df : Defaults) : Storage × Defaults :=
  if mode ≠ .localMode then
    match readBasicAuth now st with
    | (none, st') => (st', df)
    | (some s, st') => (st', { df with authorization := some (basicHeaderValue s.username s.password) })
  else (st, { df with authorization := none })

/-! ### Navigation (`go`, `location`) and the whitelist regex -/

/-- JavaScript `String.prototype.startsWith`, written over character lists so
the kernel can evaluate it. -/
def startsWithS (s pre : String) : Bool := pre.data.isPrefixOf s.data

/-- JavaScript `String.prototype.trim`, written over character lists. -/
def trimS (s : String) : String :=
  ⟨((s.data.dropWhile (·.isWhitespace)).reverse.dropWhile (·.isWhitespace)).reverse⟩

/-- Browser location: `location.pathname` and `location.search`. -/
structure Loc where
  pathname : String
  search : String
deriving DecidableEq, Repr

/-- Assigning `location.href = href` lands on the part before the first `?`
as pathname, the rest (with the `?`) as search. -/
def splitAtQuery (href : String) : Loc :=
  match href.data.span (fun c => c ≠ '?') with
  | (p, rest) => ⟨⟨p⟩, ⟨rest⟩⟩

/-- `go(to)`: prefix with `/` if needed, prepend `BASE_URL`, and assign
`location.href` unless the location already equals the target.  Returns the
new location together with the list of href assignments performed. -/
def go (baseUrl : String) (loc : Loc) (dest : String) : Loc × List String :=
  let path := if startsWithS dest "/" then dest else "/" ++ dest
  let href := baseUrl ++ path
  if loc.pathname ++ loc.search ≠ href then (splitAtQuery href, [href]) else (loc, [])

/-- JavaScript `s.replace(pat, "")` for a string pattern: drop the first
occurrence of `pat` (no-op when `pat` is empty or absent). -/
def stripFirstAux (pat : List Char) : List Char → List Char
  | [] => []
  | c :: cs => if pat.isPrefixOf (c :: cs) then (c :: cs).drop pat.length
               else c :: stripFirstAux pat cs

/-- String wrapper for `stripFirstAux`. -/
def stripFirst (s pat : String) : String := ⟨stripFirstAux pat.data s.data⟩

/-- One alternative of the whitelist regex: `word(\/|$)` anchored after a
leading `/`. -/
def segMatch (w s : String) : Bool :=
  (s == "/" ++ w) || startsWithS s ("/" ++ w ++ "/")

/-- `/^\/(error(\/|$)|network(\/|$)|profile(\/|$)|register(\/|$))/.test(path.replace(BASE_URL, ""))`. -/
def isWhitelisted (baseUrl path : String) : Bool :=
  let s := stripFirst path baseUrl
  segMatch "error" s || segMatch "network" s || segMatch "profile" s || segMatch "register" s

/-! ### The axios interceptors -/

/-- The per-request pieces of an axios config the interceptors look at:
an explicit `Authorization` header (merged over the defaults before the
request interceptor runs) and the `x-skip-auth-redirect` header value. -/
structure ReqConfig where
  authorization : Option String
  skipAuthRedirect : Option String
deriving DecidableEq, Repr

/-- Request interceptor: in non-local modes re-read the stored basic record
and, when present, overwrite the request's `Authorization` header with
`Basic btoa(username:password)`; otherwise the merged headers (per-request
value, else the axios default) go out unchanged.  Returns the
`Authorization` value of the request as sent, and the storage after the
read's clean-up. -/
def requestInterceptor (mode : AuthMode) (now : Nat) (df : Defaults)
    (cfg : ReqConfig) (st : Storage) : Option String × Storage :=
  let merged := cfg.authorization.orElse (fun _ => df.authorization)
  if mode ≠ .localMode then
    match readBasicAuth now st with
    | (some s, st') => (some (basicHeaderValue s.username s.password), st')
    | (none, st') => (merged, st')
  else (merged, st)

/-- An axios error as seen by the response interceptor: the response status
(`none` when no response was received), the `ERR_NETWORK` code flag, and the
request's `x-skip-auth-redirect` header. -/
structure AxiosErr where
  status? : Option Nat
  errNetwork : Bool
  skipHeader : Option String
deriving DecidableEq, Repr

/-- The whole client-side state the response interceptor touches. -/
structure ClientState where
  loc : Loc
  storage : Storage
  defaults : Defaults
  returnTo : Option String
deriving DecidableEq, Repr

/-- Outcome of the response interceptor's error handler: the state after all
side effects, the href assignments performed, and the error it rejects with
(every branch ends in `Promise.reject(err)`). -/
structure HandlerOut where
  state : ClientState
  navs : List String
  rejectedWith : AxiosErr
deriving DecidableEq, Repr

/-- The recognized non-auth statuses (`handled` in client.ts). -/
def handledStatuses : List Nat := [404, 409, 418, 429, 500, 502, 503, 504]

/-- The response interceptor's error branch (client.ts
`api.interceptors.response.use`, second argument). -/
def responseOnError (mode : AuthMode) (baseUrl : String) (err : AxiosErr)
    (cs : ClientState) : HandlerOut :=
  if err.errNetwork = true ∨ err.status? = none then
    if ¬ startsWithS cs.loc.pathname (baseUrl ++ "/network") then
      let (loc', navs) := go baseUrl cs.loc "/network"
      ⟨{ cs with loc := loc' }, navs, err⟩
    else ⟨cs, [], err⟩
  else
    let status := err.status?.getD 0
    let path := cs.loc.pathname
    let search := cs.loc.search
    if (status = 401 ∨ status = 403) ∧ mode = .localMode then ⟨cs, [], err⟩
    else
      let skipAuthRedirect := err.skipHeader = some "1"
      let wl := isWhitelisted baseUrl path
      if (status = 401 ∨ status = 403) ∧ ¬ skipAuthRedirect then
        let (st1, df1) := dropAuthS cs.defaults
        let cs1 := { cs with storage := st1, defaults := df1 }
        if ¬ wl ∧ path ≠ baseUrl ++ "/profile" then
          let cs2 := { cs1 with returnTo := some (path ++ search) }
          let (loc', navs) := go baseUrl cs2.loc "/profile?expired=1"
          ⟨{ cs2 with loc := loc' }, navs, err⟩
        else ⟨cs1, [], err⟩
      else
        if status ∈ handledStatuses then
          if ¬ startsWithS path (baseUrl ++ "/error/") then
            let (loc', navs) := go baseUrl cs.loc ("/error/" ++ toString status)
            ⟨{ cs with loc := loc' }, navs, err⟩
          else ⟨cs, [], err⟩
        else ⟨cs, [], err⟩

/-- Feed the same error through the interceptor `n` times in sequence,
collecting every navigation performed. -/
def iterFailures (mode : AuthMode) (baseUrl : String) (err : AxiosErr) :
    Nat → ClientState → ClientState × List String
  | 0, cs => (cs, [])
  | n + 1, cs =>
      let out := responseOnError mode baseUrl err cs
      let (cs', navs') := iterFailures mode baseUrl err n out.state
      (cs', out.navs ++ navs')

/-! ### Login flows (endpoints.ts `loginUserApi`, authSlice `loginHybrid`) -/

/-- Normalized user profile (only the fields the login stubs construct). -/
structure Profile where
  id : Nat
  name : String
  ava : String
deriving DecidableEq, Repr

/-- Outcome of the remote profile-verification request, as an environment
parameter: the profile the server returned, or the failure shape
(status, network-flag).  These requests set no `x-skip-auth-redirect`
header. -/
inductive FetchOutcome
  | ok (me : Profile)
  | fail (status? : Option Nat) (network : Bool)
deriving DecidableEq, Repr

/-- authSlice `loginHybrid`: try the verification request; on success persist
via `rememberHybridAuth` (7 days when `remember`, else 1); on failure the
failed request first runs through the response interceptor, then the thunk
falls back to a local record and placeholder profile when
`username.trim().length >= 3`, else rejects. -/
def loginHybrid (username password : String) (remember : Bool)
    (outcome : FetchOutcome) (baseUrl : String) (now : Nat)
    (cs : ClientState) : Except String Profile × ClientState :=
  match outcome with
  | .ok me =>
      let (st', df') := rememberHybridAuthS username password (if remember then 7 else 1)
        now cs.storage cs.defaults
      (.ok me, { cs with storage := st', defaults := df' })
  | .fail status? network =>
      let err : AxiosErr := ⟨status?, network, none⟩
      let cs' := (responseOnError .hybrid baseUrl err cs).state
      if (trimS username).length ≥ 3 then
        (.ok ⟨0, username, ""⟩,
         { cs' with storage := rememberLocalAuthS username 7 now cs'.storage })
      else (.error "Неверный логин или пароль", cs')

/-- endpoints.ts `loginUserApi` in basic mode: `rememberAuth(login, password)`
first (persisting the pair and priming the default header), then
`myProfile()`; a failing profile request runs through the response
interceptor and the call rejects with the original error. -/
def loginUserApiBasic (login password : String) (outcome : FetchOutcome)
    (baseUrl : String) (now : Nat) (cs : ClientState) :
    Except AxiosErr Profile × ClientState :=
  let (st1, df1) := rememberBasicAuthS login password 7 now cs.storage cs.defaults
  let cs1 := { cs with storage := st1, defaults := df1 }
  match outcome with
  | .ok me => (.ok me, cs1)
  | .fail status? network =>
      let err : AxiosErr := ⟨status?, network, none⟩
      (.error err, (responseOnError .basic baseUrl err cs1).state)

/-! ### Return-target resolution (ProfilePage effect, LoginForm.handleLogin) -/

/-- ProfilePage's post-login effect: priority 1 is the in-memory
`location.state.from` target (the persisted `return_to` value is left
untouched); priority 2 is the `return_to` session value, removed before
navigating; otherwise no navigation.  Returns the navigation target (if any)
and the session value afterwards. -/
def profileArrivalResolve (fromState : Option String) (returnTo : Option String) :
    Option String × Option String :=
  match fromState with
  | some f => (some f, returnTo)
  | none =>
      match returnTo with
      | some b => if b ≠ "" then (some b, none) else (none, some b)
      | none => (none, none)

/-- client.ts `consumeReturnTo`: read the session value, remove it only when
truthy, return it. -/
def consumeReturnToS (returnTo : Option String) : Option String × Option String :=
  match returnTo with
  | some v => if v ≠ "" then (some v, none) else (some v, some v)
  | none => (none, none)

/-- LoginForm's post-login navigation: `nav(consumeReturnTo() || "/")`
(the `expired` query flag does not change the destination). -/
def loginFormNavTarget (returnTo : Option String) : String × Option String :=
  let (v, rest) := consumeReturnToS returnTo
  (match v with
   | some t => if t ≠ "" then t else "/"
   | none => "/", rest)

/-! ## Helper lemmas -/

/-- A cell failing `readBasicAuth`'s validation is read as `none` and
removed. -/
theorem tryRead_invalid (now : Nat) (v : StoredVal) (h : basicCellValid now v = false) :
    tryRead now (some v) = (none, none) := by
  cases v with
  | malformed => rfl
  | json u? p? exp =>
    cases u? with
    | none => rfl
    | some u =>
      cases p? with
      | none => rfl
      | some p =>
        simp only [basicCellValid, Bool.and_eq_false_iff, Bool.not_eq_false',
          beq_iff_eq, decide_eq_true_eq] at h
        have hc : u = "" ∨ p = "" ∨ now > exp := by
          rcases h with h | h
          · rcases h with h | h
            · exact Or.inl h
            · exact Or.inr (Or.inl h)
          · exact Or.inr (Or.inr h)
        simp only [tryRead, if_pos hc]

/-- A cell passing `readBasicAuth`'s validation is returned and kept. -/
theorem tryRead_valid (now : Nat) (u p : String) (exp : Nat)
    (hu : u ≠ "") (hp : p ≠ "") (hexp : now ≤ exp) :
    tryRead now (some (.json (some u) (some p) exp)) =
      (some ⟨u, p, exp⟩, some (.json (some u) (some p) exp)) := by
  have hc : ¬ (u = "" ∨ p = "" ∨ now > exp) := by
    intro h
    rcases h with h | h | h
    · exact hu h
    · exact hp h
    · omega
  simp only [tryRead, if_neg hc]

/-- A cell failing `readLocalAuth`'s validation is read as `none` and
removed. -/
theorem readLocalAuth_invalid (now : Nat) (st : Storage) (v : StoredVal)
    (hv : st.fwAuthLocal = some v) (h : localCellValid now v = false) :
    readLocalAuth now st = (none, { st with fwAuthLocal := none }) := by
  obtain ⟨f1, f2, f3⟩ := st
  simp only at hv
  subst hv
  cases v with
  | malformed => rfl
  | json u? p? exp =>
    cases u? with
    | none => rfl
    | some u =>
      simp only [localCellValid, Bool.and_eq_false_iff, Bool.not_eq_false',
        beq_iff_eq, decide_eq_true_eq] at h
      simp only [readLocalAuth, if_pos h]

/-! ## Claims -/

/-- **C2, counterexample.**  The claim says a stored record with
`expiresAt <= Date.now()` is read as absent and removed.  At the boundary
`expiresAt = Date.now()` the code's check `Date.now() > Number(parsed.exp)`
is false, so both readers return the record and leave the entries in place:
with `now = 1000` and both a Basic record under `fw_auth` and a Local record
under `fw_auth_local` carrying `exp = 1000`, `readBasicAuth` yields the
record and the unchanged storage, and so does `readLocalAuth`. -/
theorem c2_expiry_counterexample :
    readBasicAuth 1000
        ⟨some (.json (some "u") (some "p") 1000), none, some (.json (some "u") none 1000)⟩ =
      (some ⟨"u", "p", 1000⟩,
        ⟨some (.json (some "u") (some "p") 1000), none, some (.json (some "u") none 1000)⟩)
  ∧ readLocalAuth 1000
        ⟨some (.json (some "u") (some "p") 1000), none, some (.json (some "u") none 1000)⟩ =
      (some ⟨"u", 1000⟩,
        ⟨some (.json (some "u") (some "p") 1000), none, some (.json (some "u") none 1000)⟩) := by
  decide

/-- **C2, amended.**  Strictly-expired (`expiresAt < now`), field-deficient or
unparseable records are read as absent and their backing entry removed, for
every key that the read actually consults: the Local key always; the primary
Basic key always; the secondary Basic key only when the primary yields no
valid record (a valid primary record short-circuits the secondary read).
Records whose fields are present and non-empty with `now ≤ expiresAt` are
returned with storage untouched.  The reads are total functions (never
throw). -/
theorem c2_expiry_amended (now : Nat) (st : Storage) :
    (∀ v, st.fwAuthLocal = some v → localCellValid now v = false →
        readLocalAuth now st = (none, { st with fwAuthLocal := none }))
  ∧ (∀ u pw exp, st.fwAuthLocal = some (.json (some u) pw exp) → u ≠ "" → now ≤ exp →
        readLocalAuth now st = (some ⟨u, exp⟩, st))
  ∧ (∀ v, st.fwAuth = some v → basicCellValid now v = false →
        (readBasicAuth now st).1 = (tryRead now st.fwAuthBasic).1
      ∧ (readBasicAuth now st).2.fwAuth = none)
  ∧ ((tryRead now st.fwAuth).1 = none →
      ∀ v, st.fwAuthBasic = some v → basicCellValid now v = false →
        readBasicAuth now st =
          (none, { st with fwAuth := (tryRead now st.fwAuth).2, fwAuthBasic := none }))
  ∧ (∀ u p exp, st.fwAuth = some (.json (some u) (some p) exp) →
        u ≠ "" → p ≠ "" → now ≤ exp →
        readBasicAuth now st = (some ⟨u, p, exp⟩, st)) := by
  obtain ⟨f1, f2, f3⟩ := st
  refine ⟨?_, ?_, ?_, ?_, ?_⟩
  · intro v hv h
    exact readLocalAuth_invalid now ⟨f1, f2, f3⟩ v hv h
  · intro u pw exp hv hu hexp
    simp only at hv
    subst hv
    have hc : ¬ (u = "" ∨ now > exp) := by
      intro h
      rcases h with h | h
      · exact hu h
      · omega
    simp only [readLocalAuth, if_neg hc]
  · intro v hv h
    simp only at hv
    subst hv
    simp only [readBasicAuth, tryRead_invalid now v h]
    exact ⟨trivial, trivial⟩
  · intro h1 v hv h
    simp only at hv
    subst hv
    have he : tryRead now f1 = (none, (tryRead now f1).2) := by
      rw [← h1]
    rw [readBasicAuth]
    simp only at he ⊢
    rw [he, tryRead_invalid now v h]
  · intro u p exp hv hu hp hexp
    simp only at hv
    subst hv
    simp only [readBasicAuth, tryRead_valid now u p exp hu hp hexp]

/-- **C2, witness** for the amended theorem: with `now = 10`, a strictly
expired Basic record (`exp = 5`) under the primary key alongside an empty
secondary key is read as absent and removed, and an unparseable Local entry
is removed. -/
theorem c2_expiry_amended_witness :
    ((tryRead 10 (⟨some (.json (some "u") (some "p") 5), none, some .malformed⟩ : Storage).fwAuth).1 = none
  ∧ basicCellValid 10 (.json (some "u") (some "p") 5) = false
  ∧ localCellValid 10 .malformed = false)
  ∧ readLocalAuth 10 ⟨some (.json (some "u") (some "p") 5), none, some .malformed⟩ =
      (none, ⟨some (.json (some "u") (some "p") 5), none, none⟩)
  ∧ ((readBasicAuth 10 ⟨some (.json (some "u") (some "p") 5), none, some .malformed⟩).1 =
        (tryRead 10 (none : Option StoredVal)).1
     ∧ (readBasicAuth 10 ⟨some (.json (some "u") (some "p") 5), none, some .malformed⟩).2.fwAuth = none) := by
  refine ⟨by decide, ?_, ?_⟩
  · exact (c2_expiry_amended 10 ⟨some (.json (some "u") (some "p") 5), none, some .malformed⟩).1
      .malformed rfl (by decide)
  · exact (c2_expiry_amended 10 ⟨some (.json (some "u") (some "p") 5), none, some .malformed⟩).2.2.1
      (.json (some "u") (some "p") 5) rfl (by decide)

/-- **C3.**  Mode isolation.  (a) In `local` mode, after
`bootstrapAuthFromStorage` has deleted the default `Authorization` header,
a request that sets no explicit `Authorization` of its own goes out with no
`Authorization` header: the request interceptor attaches nothing.  (b) In
`basic` or `hybrid` mode, with a valid record `{username, password}` stored
under the primary key, every outgoing request carries
`Authorization: Basic base64(username + ":" + password)` matching that
record. -/
theorem c3_mode_isolation :
    (∀ (now : Nat) (st : Storage) (df : Defaults) (cfg : ReqConfig),
        cfg.authorization = none →
        (requestInterceptor .localMode now
            (bootstrapAuthFromStorage .localMode now st df).2 cfg
            (bootstrapAuthFromStorage .localMode now st df).1).1 = none)
  ∧ (∀ (mode : AuthMode) (now : Nat) (u p : String) (exp : Nat) (st : Storage)
        (df : Defaults) (cfg : ReqConfig),
        (mode = .basic ∨ mode = .hybrid) →
        st.fwAuth = some (.json (some u) (some p) exp) →
        u ≠ "" → p ≠ "" → now ≤ exp →
        (requestInterceptor mode now df cfg st).1 =
          some ("Basic " ++ btoa (u ++ ":" ++ p))) := by
  constructor
  · intro now st df cfg hcfg
    simp [bootstrapAuthFromStorage, requestInterceptor, hcfg, Option.orElse]
  · intro mode now u p exp st df cfg hm hv hu hp hexp
    have hmne : mode ≠ .localMode := by
      rcases hm with h | h <;> subst h <;> simp
    obtain ⟨f1, f2, f3⟩ := st
    simp only at hv
    subst hv
    simp only [requestInterceptor, if_pos hmne, readBasicAuth,
      tryRead_valid now u p exp hu hp hexp]
    rfl

/-- **C3, witness**: in `local` mode a request with no explicit header goes
out bare even though a stale default had been primed before bootstrap; in
`basic` mode with the record `{u, p, exp 5}` stored and `now = 5` the request
carries the matching Basic header. -/
theorem c3_mode_isolation_witness :
    ((⟨none, none⟩ : ReqConfig).authorization = none
  ∧ (requestInterceptor .localMode 0
        (bootstrapAuthFromStorage .localMode 0 ⟨none, none, none⟩ ⟨some "Basic x"⟩).2
        ⟨none, none⟩
        (bootstrapAuthFromStorage .localMode 0 ⟨none, none, none⟩ ⟨some "Basic x"⟩).1).1 = none)
  ∧ (requestInterceptor .basic 5 ⟨none⟩ ⟨none, none⟩
        ⟨some (.json (some "u") (some "p") 5), none, none⟩).1 =
      some ("Basic " ++ btoa ("u" ++ ":" ++ "p")) :=
  ⟨⟨rfl, c3_mode_isolation.1 0 ⟨none, none, none⟩ ⟨some "Basic x"⟩ ⟨none, none⟩ rfl⟩,
   c3_mode_isolation.2 .basic 5 "u" "p" 5 ⟨some (.json (some "u") (some "p") 5), none, none⟩
     ⟨none⟩ ⟨none, none⟩ (Or.inl rfl) rfl (by decide) (by decide) (by decide)⟩

/-- **C6, counterexample.**  The claim says that with the stored record
absent or expired the request as sent carries no `Authorization` header and
"no previously primed default header value is sent".  But the default header
survives independently of the stored record: in `basic` mode with empty
storage and `api.defaults.headers.common.Authorization` still holding
`"Basic stale"`, the interceptor attaches nothing and the merged default goes
out, so the request is sent *with* `Authorization: Basic stale`. -/
theorem c6_no_credentials_counterexample :
    (readBasicAuth 5 ⟨none, none, none⟩).1 = none
  ∧ (requestInterceptor .basic 5 ⟨some "Basic stale"⟩ ⟨none, none⟩ ⟨none, none, none⟩).1 =
      some "Basic stale" := by
  decide

/-- **C6, amended.**  In `basic`/`hybrid` mode, when the stored Basic record
is absent or expired (`readBasicAuth` yields nothing) *and* the client's
default `Authorization` header is unset (as after a bootstrap that found no
valid record, or after `dropAuth`), a request that sets no explicit
`Authorization` header goes out without credentials. -/
theorem c6_no_credentials_amended (mode : AuthMode) (now : Nat) (st : Storage)
    (df : Defaults) (cfg : ReqConfig)
    (hm : mode = .basic ∨ mode = .hybrid)
    (habsent : (readBasicAuth now st).1 = none)
    (hdf : df.authorization = none) (hcfg : cfg.authorization = none) :
    (requestInterceptor mode now df cfg st).1 = none := by
  have hmne : mode ≠ .localMode := by
    rcases hm with h | h <;> subst h <;> simp
  have he : readBasicAuth now st = (none, (readBasicAuth now st).2) := by
    rw [← habsent]
  simp only [requestInterceptor, if_pos hmne]
  rw [he]
  simp [Option.orElse, hcfg, hdf]

/-- **C6, witness**: `basic` mode, an expired record (`exp = 5`, `now = 10`),
no default header, no explicit header — the request goes out without an
`Authorization` header. -/
theorem c6_no_credentials_amended_witness :
    ((readBasicAuth 10 ⟨some (.json (some "u") (some "p") 5), none, none⟩).1 = none
  ∧ (⟨none⟩ : Defaults).authorization = none
  ∧ (⟨none, none⟩ : ReqConfig).authorization = none)
  ∧ (requestInterceptor .basic 10 ⟨none⟩ ⟨none, none⟩
        ⟨some (.json (some "u") (some "p") 5), none, none⟩).1 = none :=
  ⟨⟨by decide, rfl, rfl⟩,
   c6_no_credentials_amended .basic 10 ⟨some (.json (some "u") (some "p") 5), none, none⟩
     ⟨none⟩ ⟨none, none⟩ (Or.inl rfl) (by decide) rfl rfl⟩

/-- **C10.**  In `hybrid` mode every `rememberAuth(username, password, days)`
persists, with the single epoch timestamp
`Date.now() + days * 24 * 3600 * 1000`, a secret-bearing record
`{username, password, exp}` under the primary Basic key `fw_auth` and an
identity-only record `{username, exp}` under the Local key `fw_auth_local`
(the secondary Basic key is untouched), and immediately sets the client's
default `Authorization` header to `Basic base64(username + ":" + password)`. -/
theorem c10_hybrid_dual_persistence (u p : String) (days now : Nat)
    (st : Storage) (df : Defaults) :
    rememberAuthS .hybrid u p days now st df =
      (⟨some (.json (some u) (some p) (now + days * 24 * 3600 * 1000)),
        st.fwAuthBasic,
        some (.json (some u) none (now + days * 24 * 3600 * 1000))⟩,
       ⟨some ("Basic " ++ btoa (u ++ ":" ++ p))⟩) := by
  rfl

/-- `go` performs exactly one href assignment when the location differs from
the target. -/
theorem go_moves (baseUrl : String) (loc : Loc) (dest : String)
    (h1 : startsWithS dest "/" = true)
    (h2 : loc.pathname ++ loc.search ≠ baseUrl ++ dest) :
    go baseUrl loc dest = (splitAtQuery (baseUrl ++ dest), [baseUrl ++ dest]) := by
  simp only [go, h1, if_true, if_pos h2]

/-- Every branch of the response interceptor rejects the original error. -/
theorem responseOnError_rejects (mode : AuthMode) (baseUrl : String)
    (err : AxiosErr) (cs : ClientState) :
    (responseOnError mode baseUrl err cs).rejectedWith = err := by
  simp only [responseOnError]
  split_ifs <;> rfl

/-- A network failure handled while the location is already on the network
view changes nothing. -/
theorem responseOnError_network_noop (mode : AuthMode) (baseUrl : String)
    (err : AxiosErr) (cs : ClientState)
    (hnet : err.errNetwork = true ∨ err.status? = none)
    (hon : startsWithS cs.loc.pathname (baseUrl ++ "/network") = true) :
    responseOnError mode baseUrl err cs = ⟨cs, [], err⟩ := by
  simp only [responseOnError, if_pos hnet]
  rw [if_neg (fun hc => hc hon)]

/-- **C9.**  A failure with no response navigates to the network view: when
the current location is not already under the network path (and is not
letter-for-letter the target href), the handler performs exactly the one
navigation to `baseUrl ++ "/network"` and rejects the error; and for every
sequence of `n ≥ 0` such failures handled while the location is already the
network view, zero navigations occur. -/
theorem c9_network_redirect_idempotent (mode : AuthMode) (baseUrl : String)
    (err : AxiosErr) (cs : ClientState)
    (hnet : err.errNetwork = true ∨ err.status? = none) :
    (startsWithS cs.loc.pathname (baseUrl ++ "/network") = false →
       cs.loc.pathname ++ cs.loc.search ≠ baseUrl ++ "/network" →
       responseOnError mode baseUrl err cs =
         ⟨{ cs with loc := splitAtQuery (baseUrl ++ "/network") },
          [baseUrl ++ "/network"], err⟩)
  ∧ (startsWithS cs.loc.pathname (baseUrl ++ "/network") = true →
       ∀ n, (iterFailures mode baseUrl err n cs).2 = []) := by
  constructor
  · intro hoff hne
    simp only [responseOnError, if_pos hnet]
    rw [if_pos (by simp [hoff])]
    rw [go_moves baseUrl cs.loc "/network" (by decide) hne]
  · intro hon n
    induction n with
    | zero => rfl
    | succ n ih =>
      simp only [iterFailures, responseOnError_network_noop mode baseUrl err cs hnet hon]
      simpa using ih

/-- **C9, witness**: from `/x` a `basic`-mode network failure navigates to
`/network` once; three further failures handled on `/network` navigate zero
times. -/
theorem c9_network_redirect_idempotent_witness :
    ((⟨none, true, none⟩ : AxiosErr).errNetwork = true
  ∧ startsWithS "/x" ("" ++ "/network") = false
  ∧ "/x" ++ "" ≠ "" ++ "/network"
  ∧ startsWithS "/network" ("" ++ "/network") = true)
  ∧ responseOnError .basic "" ⟨none, true, none⟩
      ⟨⟨"/x", ""⟩, ⟨none, none, none⟩, ⟨none⟩, none⟩ =
      ⟨⟨splitAtQuery ("" ++ "/network"), ⟨none, none, none⟩, ⟨none⟩, none⟩,
       ["" ++ "/network"], ⟨none, true, none⟩⟩
  ∧ (iterFailures .basic "" ⟨none, true, none⟩ 3
      ⟨⟨"/network", ""⟩, ⟨none, none, none⟩, ⟨none⟩, none⟩).2 = [] :=
  ⟨⟨rfl, by decide, by decide, by decide⟩,
   (c9_network_redirect_idempotent .basic "" ⟨none, true, none⟩
      ⟨⟨"/x", ""⟩, ⟨none, none, none⟩, ⟨none⟩, none⟩ (Or.inl rfl)).1 (by decide) (by decide),
   (c9_network_redirect_idempotent .basic "" ⟨none, true, none⟩
      ⟨⟨"/network", ""⟩, ⟨none, none, none⟩, ⟨none⟩, none⟩ (Or.inl rfl)).2 (by decide) 3⟩

/-- **C1, counterexample.**  The claim exempts every current path that
*starts with* `/error`, `/network`, `/profile` or `/register` (after base
stripping) from the redirect.  The code's whitelist regex
`^\/(error(\/|$)|...)` only matches those as whole leading segments: on a 401
in `basic` mode at path `/errors` — which starts with `/error` — the
interceptor still persists the return target and navigates to
`/profile?expired=1`, contradicting the claim. -/
theorem c1_auth_redirect_counterexample :
    startsWithS "/errors" "/error" = true
  ∧ (responseOnError .basic "" ⟨some 401, false, none⟩
        ⟨⟨"/errors", ""⟩, ⟨none, none, none⟩, ⟨some "d"⟩, none⟩).navs =
      ["/profile?expired=1"]
  ∧ (responseOnError .basic "" ⟨some 401, false, none⟩
        ⟨⟨"/errors", ""⟩, ⟨none, none, none⟩, ⟨some "d"⟩, none⟩).state.returnTo =
      some "/errors" := by
  refine ⟨by decide, by decide, by decide⟩

/-- **C1, amended.**  For a 401/403 response in `basic`/`hybrid` mode: with
the opt-out header `x-skip-auth-redirect: "1"` the error is rejected with no
credential clearing and no navigation; otherwise all three credential keys
and the default `Authorization` header are cleared and, unless the current
path (base prefix stripped) has `/error`, `/network`, `/profile` or
`/register` as a whole leading segment (equal to it, or continuing with `/`)
or the path equals the profile path, the path plus query string is persisted
under `return_to` and the one navigation goes to `/profile?expired=1`; in
every branch the original error is rejected to the caller. -/
theorem c1_auth_redirect_amended (mode : AuthMode) (baseUrl : String) (s : Nat)
    (skip : Option String) (cs : ClientState)
    (hm : mode = .basic ∨ mode = .hybrid) (hs : s = 401 ∨ s = 403) :
    (responseOnError mode baseUrl ⟨some s, false, skip⟩ cs).rejectedWith =
        ⟨some s, false, skip⟩
  ∧ (skip = some "1" →
        responseOnError mode baseUrl ⟨some s, false, skip⟩ cs =
          ⟨cs, [], ⟨some s, false, skip⟩⟩)
  ∧ (skip ≠ some "1" →
        (responseOnError mode baseUrl ⟨some s, false, skip⟩ cs).state.storage =
            ⟨none, none, none⟩
      ∧ (responseOnError mode baseUrl ⟨some s, false, skip⟩ cs).state.defaults.authorization =
            none
      ∧ (isWhitelisted baseUrl cs.loc.pathname = false →
           cs.loc.pathname ≠ baseUrl ++ "/profile" →
           cs.loc.pathname ++ cs.loc.search ≠ baseUrl ++ "/profile?expired=1" →
             (responseOnError mode baseUrl ⟨some s, false, skip⟩ cs).state.returnTo =
                 some (cs.loc.pathname ++ cs.loc.search)
           ∧ (responseOnError mode baseUrl ⟨some s, false, skip⟩ cs).navs =
                 [baseUrl ++ "/profile?expired=1"])
      ∧ ((isWhitelisted baseUrl cs.loc.pathname = true ∨
            cs.loc.pathname = baseUrl ++ "/profile") →
             (responseOnError mode baseUrl ⟨some s, false, skip⟩ cs).state.returnTo =
                 cs.returnTo
           ∧ (responseOnError mode baseUrl ⟨some s, false, skip⟩ cs).navs = []
           ∧ (responseOnError mode baseUrl ⟨some s, false, skip⟩ cs).state.loc = cs.loc)) := by
  have hnotnet : ¬((⟨some s, false, skip⟩ : AxiosErr).errNetwork = true ∨
      (⟨some s, false, skip⟩ : AxiosErr).status? = none) := by simp
  have hlocal : ¬((s = 401 ∨ s = 403) ∧ mode = .localMode) := by
    rintro ⟨-, hc⟩
    rcases hm with hm | hm <;> subst hm <;> exact absurd hc (by decide)
  have hin : s ∉ handledStatuses := by
    rcases hs with hs | hs <;> subst hs <;> decide
  refine ⟨responseOnError_rejects mode baseUrl ⟨some s, false, skip⟩ cs, ?_, ?_⟩
  · intro hskip
    subst hskip
    simp only [responseOnError, Option.getD_some]
    rw [if_neg hnotnet, if_neg hlocal,
      if_neg (show ¬((s = 401 ∨ s = 403) ∧ ¬True) by simp), if_neg hin]
  · intro hskip
    have hauth : (s = 401 ∨ s = 403) ∧ ¬(skip = some "1") := ⟨hs, hskip⟩
    simp only [responseOnError, Option.getD_some]
    rw [if_neg hnotnet, if_neg hlocal, if_pos hauth]
    refine ⟨?_, ?_, ?_, ?_⟩
    · by_cases hbr : ¬(isWhitelisted baseUrl cs.loc.pathname) ∧
          cs.loc.pathname ≠ baseUrl ++ "/profile"
      · rw [if_pos hbr]; rfl
      · rw [if_neg hbr]; rfl
    · by_cases hbr : ¬(isWhitelisted baseUrl cs.loc.pathname) ∧
          cs.loc.pathname ≠ baseUrl ++ "/profile"
      · rw [if_pos hbr]; rfl
      · rw [if_neg hbr]; rfl
    · intro hwl hprof hne
      rw [if_pos ⟨by simp [hwl], hprof⟩,
        go_moves baseUrl cs.loc "/profile?expired=1" (by decide) hne]
      exact ⟨rfl, rfl⟩
    · intro hwb
      rw [if_neg (fun hc => hwb.elim (fun h => hc.1 (by simp [h])) (fun h => hc.2 h))]
      exact ⟨rfl, rfl, rfl⟩

/-- **C1, witness** for the amended theorem: `basic` mode at the
non-whitelisted path `/edit/42` with a 403 and no opt-out header — the
credentials are cleared, `/edit/42` is persisted and the one navigation goes
to `/profile?expired=1` (the spec's Scenario C). -/
theorem c1_auth_redirect_amended_witness :
    (isWhitelisted "" "/edit/42" = false
  ∧ (some "x" : Option String) ≠ some "1")
  ∧ (responseOnError .basic "" ⟨some 403, false, some "x"⟩
        ⟨⟨"/edit/42", ""⟩, ⟨some (.json (some "u") (some "p") 50), none, none⟩,
         ⟨some "d"⟩, none⟩).state.storage = ⟨none, none, none⟩
  ∧ (responseOnError .basic "" ⟨some 403, false, some "x"⟩
        ⟨⟨"/edit/42", ""⟩, ⟨some (.json (some "u") (some "p") 50), none, none⟩,
         ⟨some "d"⟩, none⟩).state.returnTo = some ("/edit/42" ++ "")
  ∧ (responseOnError .basic "" ⟨some 403, false, some "x"⟩
        ⟨⟨"/edit/42", ""⟩, ⟨some (.json (some "u") (some "p") 50), none, none⟩,
         ⟨some "d"⟩, none⟩).navs = ["" ++ "/profile?expired=1"] := by
  have h := c1_auth_redirect_amended .basic "" 403 (some "x")
    ⟨⟨"/edit/42", ""⟩, ⟨some (.json (some "u") (some "p") 50), none, none⟩, ⟨some "d"⟩, none⟩
    (Or.inl rfl) (Or.inr rfl)
  have h2 := h.2.2 (by decide)
  have h3 := h2.2.2.1 (by decide) (by decide) (by decide)
  exact ⟨⟨by decide, by decide⟩, h2.1, h3.1, h3.2⟩

/-- A status-coded error route target starts with a slash. -/
theorem errorRoute_startsWithSlash (t : String) :
    startsWithS ("/error/" ++ t) "/" = true := by
  rfl

/-- **C8, counterexample.**  The claim includes the whole 5xx family in the
recognized set.  The code's `handled` list is `[404, 409, 418, 429, 500,
502, 503, 504]`: status 501 — a 5xx response received away from any error
view — triggers no navigation, contradicting the claim. -/
theorem c8_recognized_status_counterexample :
    500 ≤ 501 ∧ 501 < 600
  ∧ startsWithS "/x" ("" ++ "/error/") = false
  ∧ (responseOnError .basic "" ⟨some 501, false, none⟩
      ⟨⟨"/x", ""⟩, ⟨none, none, none⟩, ⟨none⟩, none⟩).navs = []
  ∧ (responseOnError .basic "" ⟨some 501, false, none⟩
      ⟨⟨"/x", ""⟩, ⟨none, none, none⟩, ⟨none⟩, none⟩).state =
      ⟨⟨"/x", ""⟩, ⟨none, none, none⟩, ⟨none⟩, none⟩ := by
  refine ⟨by decide, by decide, by decide, by decide, by decide⟩

/-- **C8, amended.**  For a failed response whose status is not 401/403: if
the status is in the code's recognized list
`[404, 409, 418, 429, 500, 502, 503, 504]`, the classifier navigates to the
status-coded error view `/error/<status>` unless the current path already
starts with the error-view prefix (or is letter-for-letter the target);
for every status outside that list nothing happens beyond rejecting the
error to the caller. -/
theorem c8_recognized_status_amended (mode : AuthMode) (baseUrl : String)
    (s : Nat) (skip : Option String) (cs : ClientState)
    (hnotauth : s ≠ 401 ∧ s ≠ 403) :
    (responseOnError mode baseUrl ⟨some s, false, skip⟩ cs).rejectedWith =
        ⟨some s, false, skip⟩
  ∧ (s ∈ handledStatuses →
        (startsWithS cs.loc.pathname (baseUrl ++ "/error/") = false →
           cs.loc.pathname ++ cs.loc.search ≠ baseUrl ++ ("/error/" ++ toString s) →
           responseOnError mode baseUrl ⟨some s, false, skip⟩ cs =
             ⟨{ cs with loc := splitAtQuery (baseUrl ++ ("/error/" ++ toString s)) },
              [baseUrl ++ ("/error/" ++ toString s)], ⟨some s, false, skip⟩⟩)
      ∧ (startsWithS cs.loc.pathname (baseUrl ++ "/error/") = true →
           responseOnError mode baseUrl ⟨some s, false, skip⟩ cs =
             ⟨cs, [], ⟨some s, false, skip⟩⟩))
  ∧ (s ∉ handledStatuses →
        responseOnError mode baseUrl ⟨some s, false, skip⟩ cs =
          ⟨cs, [], ⟨some s, false, skip⟩⟩) := by
  have hnotnet : ¬((⟨some s, false, skip⟩ : AxiosErr).errNetwork = true ∨
      (⟨some s, false, skip⟩ : AxiosErr).status? = none) := by simp
  have hfalse : ¬(s = 401 ∨ s = 403) := by
    rintro (h | h)
    · exact hnotauth.1 h
    · exact hnotauth.2 h
  have hlocal : ¬((s = 401 ∨ s = 403) ∧ mode = .localMode) := fun hc => hfalse hc.1
  have hauthskip : ¬((s = 401 ∨ s = 403) ∧ ¬(skip = some "1")) := fun hc => hfalse hc.1
  refine ⟨responseOnError_rejects mode baseUrl ⟨some s, false, skip⟩ cs, ?_, ?_⟩
  · intro hmem
    constructor
    · intro hoff hne
      simp only [responseOnError, Option.getD_some]
      rw [if_neg hnotnet, if_neg hlocal, if_neg hauthskip, if_pos hmem,
        if_pos (by simp [hoff]),
        go_moves baseUrl cs.loc ("/error/" ++ toString s) (errorRoute_startsWithSlash _) hne]
    · intro hon
      simp only [responseOnError, Option.getD_some]
      rw [if_neg hnotnet, if_neg hlocal, if_neg hauthskip, if_pos hmem,
        if_neg (fun hc => hc hon)]
  · intro hnm
    simp only [responseOnError, Option.getD_some]
    rw [if_neg hnotnet, if_neg hlocal, if_neg hauthskip, if_neg hnm]

/-- **C8, witness** for the amended theorem: a 404 away from the error views
navigates to `/error/404`; a 400 (outside the recognized list) does
nothing. -/
theorem c8_recognized_status_amended_witness :
    ((404 : Nat) ≠ 401 ∧ (404 : Nat) ≠ 403 ∧ 404 ∈ handledStatuses
  ∧ (400 : Nat) ∉ handledStatuses)
  ∧ responseOnError .basic "" ⟨some 404, false, none⟩
      ⟨⟨"/x", ""⟩, ⟨none, none, none⟩, ⟨none⟩, none⟩ =
      ⟨⟨splitAtQuery ("" ++ ("/error/" ++ toString (404 : Nat))),
        ⟨none, none, none⟩, ⟨none⟩, none⟩,
       ["" ++ ("/error/" ++ toString (404 : Nat))], ⟨some 404, false, none⟩⟩
  ∧ responseOnError .basic "" ⟨some 400, false, none⟩
      ⟨⟨"/x", ""⟩, ⟨none, none, none⟩, ⟨none⟩, none⟩ =
      ⟨⟨⟨"/x", ""⟩, ⟨none, none, none⟩, ⟨none⟩, none⟩, [], ⟨some 400, false, none⟩⟩ :=
  ⟨⟨by decide, by decide, by decide, by decide⟩,
   ((c8_recognized_status_amended .basic "" 404 none
      ⟨⟨"/x", ""⟩, ⟨none, none, none⟩, ⟨none⟩, none⟩ ⟨by decide, by decide⟩).2.1
      (by decide)).1 (by decide) (by decide),
   (c8_recognized_status_amended .basic "" 400 none
      ⟨⟨"/x", ""⟩, ⟨none, none, none⟩, ⟨none⟩, none⟩ ⟨by decide, by decide⟩).2.2
      (by decide)⟩

/-- **C4, counterexample.**  The claim keys the fallback on the identity's
*length*; the code checks `username.trim().length >= 3`.  The identity
`"  a"` has length 3, yet a hybrid login whose verification fails rejects
with the authentication error instead of succeeding. -/
theorem c4_hybrid_fallback_counterexample :
    ("  a").length = 3
  ∧ (loginHybrid "  a" "pw" true (.fail (some 401) false) "" 1000
      ⟨⟨"/x", ""⟩, ⟨none, none, none⟩, ⟨none⟩, none⟩).1 =
      .error "Неверный логин или пароль" := by
  exact ⟨by decide, rfl⟩

/-- **C4, amended.**  In `hybrid` mode, for every login whose remote profile
verification fails: if the *trimmed* identity has length ≥ 3 the call
succeeds with the Local-style placeholder profile `{id 0, name username,
ava ""}` and an identity-only Local record (7-day expiry) remains persisted
under `fw_auth_local`; if the trimmed identity has length < 3 the call
rejects with the authentication error. -/
theorem c4_hybrid_fallback_amended (u p : String) (remember : Bool)
    (st? : Option Nat) (nw : Bool) (baseUrl : String) (now : Nat)
    (cs : ClientState) :
    ((trimS u).length ≥ 3 →
        (loginHybrid u p remember (.fail st? nw) baseUrl now cs).1 = .ok ⟨0, u, ""⟩
      ∧ (loginHybrid u p remember (.fail st? nw) baseUrl now cs).2.storage.fwAuthLocal =
          some (.json (some u) none (now + 7 * 24 * 3600 * 1000)))
  ∧ ((trimS u).length < 3 →
        (loginHybrid u p remember (.fail st? nw) baseUrl now cs).1 =
          .error "Неверный логин или пароль") := by
  constructor
  · intro h
    simp only [loginHybrid, if_pos h]
    refine ⟨?_, ?_⟩ <;> first | rfl | trivial
  · intro h
    have hn : ¬ ((trimS u).length ≥ 3) := by omega
    simp only [loginHybrid, if_neg hn]

/-- **C4, witness** for the amended theorem: `"abc"` (trimmed length 3) falls
back to a Local session on a failed verification; `"ab"` rejects. -/
theorem c4_hybrid_fallback_amended_witness :
    ((trimS "abc").length ≥ 3 ∧ (trimS "ab").length < 3)
  ∧ (loginHybrid "abc" "pw" true (.fail (some 401) false) "" 1000
      ⟨⟨"/x", ""⟩, ⟨none, none, none⟩, ⟨none⟩, none⟩).1 = .ok ⟨0, "abc", ""⟩
  ∧ (loginHybrid "abc" "pw" true (.fail (some 401) false) "" 1000
      ⟨⟨"/x", ""⟩, ⟨none, none, none⟩, ⟨none⟩, none⟩).2.storage.fwAuthLocal =
      some (.json (some "abc") none (1000 + 7 * 24 * 3600 * 1000))
  ∧ (loginHybrid "ab" "pw" true (.fail (some 401) false) "" 1000
      ⟨⟨"/x", ""⟩, ⟨none, none, none⟩, ⟨none⟩, none⟩).1 =
      .error "Неверный логин или пароль" :=
  ⟨⟨by decide, by decide⟩,
   ((c4_hybrid_fallback_amended "abc" "pw" true (some 401) false "" 1000
      ⟨⟨"/x", ""⟩, ⟨none, none, none⟩, ⟨none⟩, none⟩).1 (by decide)).1,
   ((c4_hybrid_fallback_amended "abc" "pw" true (some 401) false "" 1000
      ⟨⟨"/x", ""⟩, ⟨none, none, none⟩, ⟨none⟩, none⟩).1 (by decide)).2,
   (c4_hybrid_fallback_amended "ab" "pw" true (some 401) false "" 1000
      ⟨⟨"/x", ""⟩, ⟨none, none, none⟩, ⟨none⟩, none⟩).2 (by decide)⟩

/-- On a 401/403 without the opt-out header in a non-local mode, the
response interceptor clears all credential keys and the default header. -/
theorem responseOnError_auth_clears (mode : AuthMode) (baseUrl : String)
    (s : Nat) (skip : Option String) (cs : ClientState)
    (hm : mode ≠ .localMode) (hs : s = 401 ∨ s = 403) (hskip : skip ≠ some "1") :
    (responseOnError mode baseUrl ⟨some s, false, skip⟩ cs).state.storage =
        ⟨none, none, none⟩
  ∧ (responseOnError mode baseUrl ⟨some s, false, skip⟩ cs).state.defaults.authorization =
        none := by
  have hnotnet : ¬((⟨some s, false, skip⟩ : AxiosErr).errNetwork = true ∨
      (⟨some s, false, skip⟩ : AxiosErr).status? = none) := by simp
  have hlocal : ¬((s = 401 ∨ s = 403) ∧ mode = .localMode) := fun hc => hm hc.2
  have hauth : (s = 401 ∨ s = 403) ∧ ¬(skip = some "1") := ⟨hs, hskip⟩
  constructor <;>
    (simp only [responseOnError, Option.getD_some]
     rw [if_neg hnotnet, if_neg hlocal, if_pos hauth]
     by_cases hbr : ¬(isWhitelisted baseUrl cs.loc.pathname) ∧
        cs.loc.pathname ≠ baseUrl ++ "/profile"
     · rw [if_pos hbr]; rfl
     · rw [if_neg hbr]; rfl)

/-- **C5, counterexample.**  The claim says that after *any* failed
profile-verification the basic-mode `loginUserApi` leaves nothing persisted.
`loginUserApi` persists the pair *before* verifying; only the interceptor's
401/403 handling cleans it up afterwards.  With a 500 failure the
just-written record for the pair is still under `fw_auth` after the call
rejects. -/
theorem c5_basic_login_counterexample :
    (loginUserApiBasic "u" "p" (.fail (some 500) false) "" 1000
      ⟨⟨"/x", ""⟩, ⟨none, none, none⟩, ⟨none⟩, none⟩).1 =
      .error ⟨some 500, false, none⟩
  ∧ (loginUserApiBasic "u" "p" (.fail (some 500) false) "" 1000
      ⟨⟨"/x", ""⟩, ⟨none, none, none⟩, ⟨none⟩, none⟩).2.storage.fwAuth =
      some (.json (some "u") (some "p") (1000 + 7 * 24 * 3600 * 1000)) := by
  exact ⟨rfl, by decide⟩

/-- **C5, amended.**  In `basic` mode, when the profile-verification request
of `loginUserApi(login, password)` fails with a 401/403 response (the
request carries no opt-out header), the call rejects with that
authentication error and nothing remains persisted: the record written
optimistically before verification is removed again by the interceptor's
`dropAuth`, all three credential keys are empty and the default
`Authorization` header is unset.  (For non-auth failures — network errors or
other statuses — the optimistically persisted record remains.) -/
theorem c5_basic_login_amended (login password : String) (s : Nat)
    (baseUrl : String) (now : Nat) (cs : ClientState) (hs : s = 401 ∨ s = 403) :
    (loginUserApiBasic login password (.fail (some s) false) baseUrl now cs).1 =
        .error ⟨some s, false, none⟩
  ∧ (loginUserApiBasic login password (.fail (some s) false) baseUrl now cs).2.storage =
        ⟨none, none, none⟩
  ∧ (loginUserApiBasic login password (.fail (some s) false) baseUrl now cs).2.defaults.authorization =
        none := by
  refine ⟨rfl, ?_, ?_⟩
  · exact (responseOnError_auth_clears .basic baseUrl s none _ (by decide) hs (by simp)).1
  · exact (responseOnError_auth_clears .basic baseUrl s none _ (by decide) hs (by simp)).2

/-- **C5, witness** for the amended theorem: a 403 on verification leaves all
three keys empty and no default header, and the call rejects with the
error. -/
theorem c5_basic_login_amended_witness :
    ((403 : Nat) = 401 ∨ (403 : Nat) = 403)
  ∧ (loginUserApiBasic "u" "p" (.fail (some 403) false) "" 1000
      ⟨⟨"/x", ""⟩, ⟨none, none, none⟩, ⟨none⟩, none⟩).1 = .error ⟨some 403, false, none⟩
  ∧ (loginUserApiBasic "u" "p" (.fail (some 403) false) "" 1000
      ⟨⟨"/x", ""⟩, ⟨none, none, none⟩, ⟨none⟩, none⟩).2.storage = ⟨none, none, none⟩
  ∧ (loginUserApiBasic "u" "p" (.fail (some 403) false) "" 1000
      ⟨⟨"/x", ""⟩, ⟨none, none, none⟩, ⟨none⟩, none⟩).2.defaults.authorization = none :=
  ⟨Or.inr rfl,
   (c5_basic_login_amended "u" "p" 403 "" 1000
      ⟨⟨"/x", ""⟩, ⟨none, none, none⟩, ⟨none⟩, none⟩ (Or.inr rfl)).1,
   (c5_basic_login_amended "u" "p" 403 "" 1000
      ⟨⟨"/x", ""⟩, ⟨none, none, none⟩, ⟨none⟩, none⟩ (Or.inr rfl)).2.1,
   (c5_basic_login_amended "u" "p" 403 "" 1000
      ⟨⟨"/x", ""⟩, ⟨none, none, none⟩, ⟨none⟩, none⟩ (Or.inr rfl)).2.2⟩

/-- **C7.**  Return-target resolution on arrival at the profile/login
surface: (a) an in-memory navigation-state target wins and leaves the
persisted `return_to` value unconsumed; else (b) the persisted value is
navigated to, read once and deleted; else (c) no stored target — the
ProfilePage effect navigates nowhere further and the login form falls back
to the fixed default destination `/`, and a consumed stored value is deleted
by the login form as well. -/
theorem c7_return_target_priority :
    (∀ f stored, profileArrivalResolve (some f) stored = (some f, stored))
  ∧ (∀ b, b ≠ "" → profileArrivalResolve none (some b) = (some b, none))
  ∧ profileArrivalResolve none none = (none, none)
  ∧ (∀ t, t ≠ "" → loginFormNavTarget (some t) = (t, none))
  ∧ loginFormNavTarget none = ("/", none) := by
  refine ⟨fun f stored => rfl, ?_, rfl, ?_, rfl⟩
  · intro b hb
    simp only [profileArrivalResolve, if_pos hb]
  · intro t ht
    simp only [loginFormNavTarget, consumeReturnToS, if_pos ht]

/-- **C7, witness**: with both an in-memory target `/a` and a persisted
target `/edit/42` present, resolution yields `/a` and `/edit/42` survives;
without the in-memory target the persisted value is consumed. -/
theorem c7_return_target_priority_witness :
    ("/edit/42" ≠ "")
  ∧ profileArrivalResolve (some "/a") (some "/edit/42") = (some "/a", some "/edit/42")
  ∧ profileArrivalResolve none (some "/edit/42") = (some "/edit/42", none)
  ∧ loginFormNavTarget (some "/edit/42") = ("/edit/42", none)
  ∧ loginFormNavTarget none = ("/", none) :=
  ⟨by decide,
   c7_return_target_priority.1 "/a" (some "/edit/42"),
   c7_return_target_priority.2.1 "/edit/42" (by decide),
   c7_return_target_priority.2.2.2.1 "/edit/42" (by decide),
   c7_return_target_priority.2.2.2.2⟩

end FW
